import Mathlib

/-!
Verification development for the Monitoring & Alerting Engine of the
feature-store platform.

The repository ships the presentation layer (a Zustand store in
src/frontend/src/stores/monitoringStore.ts and the pages using it); the
systems core described by the specification (Metric Store, Rule Evaluator,
Alert Lifecycle Manager, Aggregator, Ingestion Gateway) lives behind the
HTTP API and its implementation is not part of the source tree.  The
namespace `Monitoring` therefore models that core from the specification
(each definition's doc comment says so), while the namespace
`FrontendStore` is a direct shallow embedding of monitoringStore.ts.
-/

namespace Monitoring

/-- Modelled from the spec: alert status, states {active, acknowledged,
resolved} of the Alert Lifecycle Manager state machine. -/
inductive Status
  | active
  | acknowledged
  | resolved
deriving DecidableEq, Repr

/-- Modelled from the spec: classification of a float64 value, as needed by
the Metric Store validation rule "value is NaN/Inf".  A finite float is
embedded as a rational. -/
inductive FVal
  | nan
  | posInf
  | negInf
  | finite (q : ℚ)
deriving DecidableEq, Repr

/-- A value is finite when it is neither NaN nor an infinity. -/
def FVal.isFinite : FVal → Bool
  | .finite _ => true
  | _ => false

/-- The rational carried by a finite value (0 for the non-finite ones,
which the Metric Store never stores). -/
def FVal.toRat : FVal → ℚ
  | .finite q => q
  | _ => 0

/-- Modelled from the spec: MetricObservation
(id, subject, metric_name, value, unit, timestamp).
Labels are non-semantic and omitted; timestamps are integers (epoch
seconds). -/
structure MetricObservation where
  id : Nat
  subject : String
  metric_name : String
  value : FVal
  unit : Option String
  timestamp : Int
deriving DecidableEq, Repr

/-- Modelled from the spec: Alert
(id, rule_id?, title, description, severity, source, status, metadata,
created_at, updated_at). -/
structure Alert where
  id : Nat
  rule_id : Option Nat
  title : String
  description : String
  severity : String
  source : String
  status : Status
  metadata : List (String × String)
  created_at : Int
  updated_at : Int
deriving DecidableEq, Repr

/-- Modelled from the spec: the comparator of a rule condition. -/
inductive Comparator
  | gt
  | ge
  | lt
  | le
  | eq
  | ne
deriving DecidableEq, Repr

/-- Modelled from the spec: the aggregation of a rule condition. -/
inductive Aggregation
  | last
  | avg
  | max
  | min
  | count_breach
deriving DecidableEq, Repr

/-- Modelled from the spec: a structured rule condition
(metric_name, subject_selector, comparator, threshold, window,
aggregation). -/
structure Condition where
  metric_name : String
  subject_selector : String
  comparator : Comparator
  threshold : ℚ
  window : Int
  aggregation : Aggregation
deriving DecidableEq, Repr

/-- Modelled from the spec: AlertRule
(id, name, description, condition, severity, is_active). -/
structure AlertRule where
  id : Nat
  name : String
  description : String
  condition : Condition
  severity : String
  is_active : Bool
deriving DecidableEq, Repr

/-- Evaluate a comparator on two rationals. -/
def compareQ : Comparator → ℚ → ℚ → Bool
  | .gt, a, b => a > b
  | .ge, a, b => a ≥ b
  | .lt, a, b => a < b
  | .le, a, b => a ≤ b
  | .eq, a, b => a = b
  | .ne, a, b => a ≠ b

/-! ## Alert Lifecycle Manager (modelled from the spec) -/

/-- Modelled from the spec: errors of updateStatus. -/
inductive UpdateError
  | notFound
  | invalidTransition
deriving DecidableEq, Repr

/-- Modelled from the spec: the transitions the explicit updateStatus API
allows.  Out of active: acknowledge or resolve.  Out of acknowledged:
resolve only (re-opening to active is reserved to the Rule Evaluator).
Resolved is terminal. -/
def allowedUserTransition : Status → Status → Bool
  | .active, .acknowledged => true
  | .active, .resolved => true
  | .acknowledged, .resolved => true
  | _, _ => false

/-- Look an alert up by id in the alert store. -/
def findAlert (alerts : List Alert) (alert_id : Nat) : Option Alert :=
  alerts.find? (fun a => a.id = alert_id)

/-- Modelled from the spec: updateStatus(alert_id, new_status) of the Alert
Lifecycle Manager.  Unknown id fails with NotFoundError; a transition the
state machine forbids fails with InvalidTransitionError and leaves the
store unchanged; an allowed transition stamps updated_at and rewrites the
alert in place in the store. -/
def updateStatus (alerts : List Alert) (alert_id : Nat) (new_status : Status)
    (now : Int) : Except UpdateError Alert × List Alert :=
  match alerts.find? (fun a => a.id = alert_id) with
  | none => (.error .notFound, alerts)
  | some a =>
    if allowedUserTransition a.status new_status then
      let a' := { a with status := new_status, updated_at := now }
      (.ok a', alerts.map (fun b => if b.id = alert_id then a' else b))
    else
      (.error .invalidTransition, alerts)

/-- Modelled from the spec: manual alert creation
createAlert(title, description, severity, source, metadata), always with
rule_id = null and status = active.  Returns the created alert and the
store with it prepended. -/
def createAlert (alerts : List Alert) (next_id : Nat) (title description
    severity source : String) (metadata : List (String × String))
    (now : Int) : Alert × List Alert :=
  let a : Alert :=
    { id := next_id, rule_id := none, title := title,
      description := description, severity := severity, source := source,
      status := .active, metadata := metadata,
      created_at := now, updated_at := now }
  (a, a :: alerts)

/-! ## Metric Store (modelled from the spec) -/

/-- The Metric Store: append-only time-indexed storage of observations. -/
abbrev MetricStore := List MetricObservation

/-- Modelled from the spec: the validation failure reasons of record. -/
inductive ValidationError
  | futureTimestamp
  | nonFiniteValue
  | emptyMetricName
  | emptySubject
deriving DecidableEq, Repr

/-- Modelled from the spec: the validation applied by record, with `now`
the current time and `skew` the configured skew tolerance. -/
def validateObs (now skew : Int) (o : MetricObservation) :
    Option ValidationError :=
  if now + skew < o.timestamp then some .futureTimestamp
  else if !o.value.isFinite then some .nonFiniteValue
  else if o.metric_name = "" then some .emptyMetricName
  else if o.subject = "" then some .emptySubject
  else none

/-- Modelled from the spec: record(observation).  On validation failure the
error is surfaced to the producer and the store is left unchanged; on
success the observation is appended (append-only, no update or delete). -/
def record (store : MetricStore) (now skew : Int) (o : MetricObservation) :
    Except ValidationError Unit × MetricStore :=
  match validateObs now skew o with
  | some e => (.error e, store)
  | none => (.ok (), store ++ [o])

/-- Ascending-timestamp order on observations. -/
def obsLe (a b : MetricObservation) : Prop := a.timestamp ≤ b.timestamp

instance : DecidableRel obsLe :=
  fun a b => inferInstanceAs (Decidable (a.timestamp ≤ b.timestamp))

instance : IsTotal MetricObservation obsLe :=
  ⟨fun a b => Int.le_total a.timestamp b.timestamp⟩

instance : IsTrans MetricObservation obsLe :=
  ⟨fun _ _ _ hab hbc => le_trans hab hbc⟩

/-- Whether an observation passes the query filter (optional subject,
optional metric name, closed time range). -/
def matchesQuery (subj metric : Option String) (lo hi : Int)
    (o : MetricObservation) : Bool :=
  (subj.all fun s => o.subject == s) && (metric.all fun m => o.metric_name == m)
    && decide (lo ≤ o.timestamp) && decide (o.timestamp ≤ hi)

/-- Modelled from the spec: query(subject?, metric_name?, time_range?),
returning matching observations ordered ascending by timestamp; an
unbounded time range defaults to the last 24 hours before `now`. -/
def query (store : MetricStore) (subj metric : Option String)
    (range : Option (Int × Int)) (now : Int) : List MetricObservation :=
  let r := range.getD (now - 86400, now)
  List.insertionSort obsLe (store.filter (matchesQuery subj metric r.1 r.2))

/-! ## Rule Evaluator (modelled from the spec) -/

/-- Step 1 of rule evaluation: observations for (subject, metric_name)
within the window ending at `now`. -/
def obsInWindow (store : MetricStore) (subject metric : String)
    (now window : Int) : List MetricObservation :=
  query store (some subject) (some metric) (some (now - window, now)) now

/-- Modelled from the spec, steps 2 and 3 of rule evaluation: reduce the
in-window observations via the rule's aggregation and compare against the
threshold.  Zero observations in-window is no breach; count_breach with
fewer than `minSamples` samples is also no breach (fail-closed). -/
def breach (rule : AlertRule) (obs : List MetricObservation)
    (minSamples : Nat) : Bool :=
  let c := rule.condition
  match obs.map (fun o => o.value.toRat) with
  | [] => false
  | v :: vs =>
    match c.aggregation with
    | .last => compareQ c.comparator ((v :: vs).getLast?.getD v) c.threshold
    | .avg =>
      compareQ c.comparator ((v :: vs).sum / ((vs.length + 1 : Nat) : ℚ))
        c.threshold
    | .max => compareQ c.comparator (vs.foldl Max.max v) c.threshold
    | .min => compareQ c.comparator (vs.foldl Min.min v) c.threshold
    | .count_breach =>
      if vs.length + 1 < minSamples then false
      else
        compareQ c.comparator
          (((v :: vs).countP (fun x => compareQ c.comparator x c.threshold)
            : Nat) : ℚ) c.threshold

/-- A status counting as an open alert (active or acknowledged). -/
def statusOpen (s : Status) : Bool := s == .active || s == .acknowledged

/-- Whether an open (active or acknowledged) alert exists for a rule; the
deduplication predicate of step 4, keyed on rule_id. -/
def hasOpenAlert (alerts : List Alert) (rid : Nat) : Bool :=
  alerts.any (fun a => a.rule_id == some rid && statusOpen a.status)

/-- The number of open alerts held for a rule. -/
def countOpenForRule (alerts : List Alert) (rid : Nat) : Nat :=
  alerts.countP (fun a => a.rule_id == some rid && statusOpen a.status)

/-- Modelled from the spec: on a persisting breach, acknowledged alerts of
the rule are re-opened to active. -/
def reopenAcknowledged (alerts : List Alert) (rid : Nat) (now : Int) :
    List Alert :=
  alerts.map (fun a =>
    if a.rule_id == some rid && a.status == .acknowledged
    then { a with status := .active, updated_at := now } else a)

/-- Modelled from the spec: the alert the evaluator raises on a fresh
breach, with source = rule.name and severity = rule.severity. -/
def ruleAlert (rule : AlertRule) (next_id : Nat) (now : Int) : Alert :=
  { id := next_id, rule_id := some rule.id, title := rule.name,
    description := rule.description, severity := rule.severity,
    source := rule.name, status := .active, metadata := [],
    created_at := now, updated_at := now }

/-- Modelled from the spec, one evaluation of one rule against one subject
(steps 1 to 5 of the evaluation algorithm): an inactive rule is never
evaluated; on breach, create a new alert only if no open alert exists for
the rule, otherwise re-open acknowledged ones; on no breach leave the
alert store untouched (the evaluator only raises, never resolves). -/
def evalRuleOnce (mstore : MetricStore) (alerts : List Alert)
    (rule : AlertRule) (subject : String) (now : Int)
    (minSamples next_id : Nat) : List Alert :=
  if !rule.is_active then alerts
  else
    let obs := obsInWindow mstore subject rule.condition.metric_name now
      rule.condition.window
    if breach rule obs minSamples then
      if hasOpenAlert alerts rule.id then reopenAcknowledged alerts rule.id now
      else ruleAlert rule next_id now :: alerts
    else alerts

/-! ## Aggregator (modelled from the spec) -/

/-- Modelled from the spec: the filter of listAlerts
(severity?, status?, source?). -/
structure AlertFilter where
  severity : Option String
  status : Option Status
  source : Option String
deriving DecidableEq, Repr

/-- Modelled from the spec: listAlerts(filter), every omitted filter field
matching everything. -/
def listAlerts (alerts : List Alert) (f : AlertFilter) : List Alert :=
  alerts.filter (fun a =>
    (f.severity.all fun s => a.severity == s)
      && (f.status.all fun s => a.status == s)
      && (f.source.all fun s => a.source == s))

/-- Modelled from the spec: DashboardSummary, the derived aggregate
recomputed on read. -/
structure DashboardSummary where
  data_quality_score : ℚ
  system_health : String
  active_alert_count : Nat
  critical_alerts_7d : Nat
deriving DecidableEq, Repr

/-- Whether an observation meets its governing rule's threshold (the first
active rule naming its metric); with no governing rule it counts as met. -/
def meetsGoverning (rules : List AlertRule) (o : MetricObservation) : Bool :=
  match rules.find? (fun r => r.is_active && r.condition.metric_name == o.metric_name) with
  | none => true
  | some r => !(compareQ r.condition.comparator o.value.toRat r.condition.threshold)

/-- Modelled from the spec: data_quality_score, the percentage of quality
observations of the last 24 hours meeting their governing rule's
threshold, or 100 when no active quality rule or no such observation
exists.  Which subjects are feature-scoped (quality) is opaque to this
core and passed in as `isQualitySubject`. -/
def dataQualityScore (mstore : MetricStore) (rules : List AlertRule)
    (isQualitySubject : String → Bool) (now : Int) : ℚ :=
  if rules.all (fun r => !r.is_active) then 100
  else
    let qobs := mstore.filter (fun o =>
      isQualitySubject o.subject && decide (now - 86400 ≤ o.timestamp)
        && decide (o.timestamp ≤ now))
    if qobs.length = 0 then 100
    else 100 * ((qobs.countP (meetsGoverning rules) : Nat) : ℚ) / (qobs.length : ℚ)

/-- Modelled from the spec: dashboard(), recomputed on read from the
Metric Store and the Alert store. -/
def dashboard (mstore : MetricStore) (rules : List AlertRule)
    (alerts : List Alert) (isQualitySubject : String → Bool) (now : Int) :
    DashboardSummary :=
  { data_quality_score := dataQualityScore mstore rules isQualitySubject now
    system_health :=
      if alerts.any (fun a => a.status == .active && a.severity == "critical")
      then "critical"
      else if alerts.any (fun a => a.status == .active) then "warning"
      else "healthy"
    active_alert_count := alerts.countP (fun a => a.status == .active)
    critical_alerts_7d := alerts.countP (fun a =>
      a.severity == "critical" && decide (now - 7 * 86400 ≤ a.created_at)) }

/-- Modelled from the spec: TimeSeriesBucket; a bucket with no value
represents an empty bucket (no gap-fill). -/
structure TimeSeriesBucket where
  timestamp : Int
  value : Option ℚ
deriving DecidableEq, Repr

/-- The values of observations of a metric falling in the half-open
interval from `lo` (inclusive) to `hi` (exclusive). -/
def bucketVals (store : MetricStore) (metric : String) (lo hi : Int) :
    List ℚ :=
  (store.filter (fun o =>
    o.metric_name == metric && decide (lo ≤ o.timestamp)
      && decide (o.timestamp < hi))).map (fun o => o.value.toRat)

/-- The number of fixed-width buckets partitioning the half-open range. -/
def numBuckets (start stop interval : Int) : Nat :=
  ((stop - start + interval - 1) / interval).toNat

/-- Modelled from the spec: timeSeries(metric_name, start, stop, interval)
partitions the half-open range from start to stop into fixed-width buckets
of the interval; each bucket's value is the average of the observations of
the metric whose timestamp lies in that half-open bucket, and an empty
bucket emits no value. -/
def timeSeries (store : MetricStore) (metric : String)
    (start stop interval : Int) : List TimeSeriesBucket :=
  (List.range (numBuckets start stop interval)).map (fun (k : Nat) =>
    let lo := start + (k : Int) * interval
    let hi := start + ((k : Int) + 1) * interval
    { timestamp := lo
      value :=
        match bucketVals store metric lo hi with
        | [] => none
        | v :: vs => some ((v :: vs).sum / ((vs.length + 1 : Nat) : ℚ)) })

end Monitoring

namespace FrontendStore

/-!
Shallow embedding of src/frontend/src/stores/monitoringStore.ts.  Open
key-value payloads (Record of string to any) are embedded as string-keyed
association lists with opaque string values, numbers as rationals, and the
outcome of an awaited request as an explicit `FetchResult` argument: `ok`
for a 2xx response with its parsed body, `fail msg` for a non-ok response
or thrown error with the message the catch block would compute.  Each
operation function is the composition of the set-calls the source performs
for one call of the operation.
-/

/-- Source interface DataQualityMetric. -/
structure DataQualityMetric where
  id : Int
  feature_id : Int
  metric_type : String
  value : ℚ
  threshold : ℚ
  status : String
  metadata : List (String × String)
  timestamp : String
  created_at : String
  updated_at : String
  created_by : Int
  organization_id : Int
deriving DecidableEq, Repr

/-- Source interface PerformanceMetric. -/
structure PerformanceMetric where
  id : Int
  service_name : String
  metric_name : String
  value : ℚ
  unit : String
  labels : List (String × String)
  timestamp : String
  created_at : String
  updated_at : String
  created_by : Int
  organization_id : Int
deriving DecidableEq, Repr

/-- Source interface Alert. -/
structure Alert where
  id : Int
  title : String
  description : String
  severity : String
  source : String
  metadata : List (String × String)
  status : String
  created_at : String
  updated_at : String
  created_by : Int
  organization_id : Int
deriving DecidableEq, Repr

/-- Source interface AlertRule. -/
structure AlertRule where
  id : Int
  name : String
  description : String
  condition : List (String × String)
  severity : String
  is_active : Bool
  created_at : String
  updated_at : String
  created_by : Int
  organization_id : Int
deriving DecidableEq, Repr

/-- Source interface MonitoringDashboard. -/
structure MonitoringDashboard where
  recent_quality_metrics : List DataQualityMetric
  recent_performance_metrics : List PerformanceMetric
  active_alerts : List Alert
  summary : List (String × String)
deriving DecidableEq, Repr

/-- Source interface TimeSeriesData. -/
structure TimeSeriesData where
  timestamp : String
  value : ℚ
  labels : Option (List (String × String))
deriving DecidableEq, Repr

/-- The state fields of the store (the action closures are not data). -/
structure MonitoringState where
  dataQualityMetrics : List DataQualityMetric
  performanceMetrics : List PerformanceMetric
  alerts : List Alert
  alertRules : List AlertRule
  dashboard : Option MonitoringDashboard
  timeSeriesData : List TimeSeriesData
  loading : Bool
  error : Option String
deriving DecidableEq, Repr

/-- Outcome of an awaited request: a parsed successful response, or the
error message computed in the catch block (covering both a non-ok
response, which is thrown, and any other thrown error). -/
inductive FetchResult (α : Type)
  | ok (value : α)
  | fail (msg : String)
deriving DecidableEq, Repr

/-- Every operation first sets loading true and clears error. -/
def setPending (s : MonitoringState) : MonitoringState :=
  { s with loading := true, error := none }

/-- Source fetchDataQualityMetrics: on success replace the metric list, on
failure record the message; either way loading ends false. -/
def fetchDataQualityMetrics (s : MonitoringState)
    (r : FetchResult (List DataQualityMetric)) : MonitoringState :=
  let s1 := setPending s
  match r with
  | .ok items => { s1 with dataQualityMetrics := items, loading := false }
  | .fail msg => { s1 with error := some msg, loading := false }

/-- Source fetchPerformanceMetrics. -/
def fetchPerformanceMetrics (s : MonitoringState)
    (r : FetchResult (List PerformanceMetric)) : MonitoringState :=
  let s1 := setPending s
  match r with
  | .ok items => { s1 with performanceMetrics := items, loading := false }
  | .fail msg => { s1 with error := some msg, loading := false }

/-- Source fetchAlerts. -/
def fetchAlerts (s : MonitoringState) (r : FetchResult (List Alert)) :
    MonitoringState :=
  let s1 := setPending s
  match r with
  | .ok items => { s1 with alerts := items, loading := false }
  | .fail msg => { s1 with error := some msg, loading := false }

/-- Source fetchAlertRules. -/
def fetchAlertRules (s : MonitoringState) (r : FetchResult (List AlertRule)) :
    MonitoringState :=
  let s1 := setPending s
  match r with
  | .ok rules => { s1 with alertRules := rules, loading := false }
  | .fail msg => { s1 with error := some msg, loading := false }

/-- Source fetchDashboard. -/
def fetchDashboard (s : MonitoringState)
    (r : FetchResult MonitoringDashboard) : MonitoringState :=
  let s1 := setPending s
  match r with
  | .ok d => { s1 with dashboard := some d, loading := false }
  | .fail msg => { s1 with error := some msg, loading := false }

/-- Source fetchTimeSeriesData; the success payload is the data field of
the response (an empty list when absent). -/
def fetchTimeSeriesData (s : MonitoringState)
    (r : FetchResult (List TimeSeriesData)) : MonitoringState :=
  let s1 := setPending s
  match r with
  | .ok ds => { s1 with timeSeriesData := ds, loading := false }
  | .fail msg => { s1 with error := some msg, loading := false }

/-- Source createAlert: on success the server's alert is unshifted onto
the alerts array. -/
def createAlert (s : MonitoringState) (r : FetchResult Alert) :
    MonitoringState :=
  let s1 := setPending s
  match r with
  | .ok newAlert => { s1 with alerts := newAlert :: s1.alerts, loading := false }
  | .fail msg => { s1 with error := some msg, loading := false }

/-- Source createAlertRule: on success the server's rule is unshifted onto
the alertRules array. -/
def createAlertRule (s : MonitoringState) (r : FetchResult AlertRule) :
    MonitoringState :=
  let s1 := setPending s
  match r with
  | .ok newRule => { s1 with alertRules := newRule :: s1.alertRules, loading := false }
  | .fail msg => { s1 with error := some msg, loading := false }

/-- The alerts-array update of the source updateAlertStatus success
branch: findIndex on id, and when found assign the requested status to
that element in place (the first match; later elements are untouched). -/
def setAlertStatusAt : List Alert → Int → String → List Alert
  | [], _, _ => []
  | a :: rest, alert_id, new_status =>
    if a.id = alert_id then { a with status := new_status } :: rest
    else a :: setAlertStatusAt rest alert_id new_status

/-- Source updateAlertStatus: the success response body is ignored; the
local copy of the alert, when present, gets the requested status string. -/
def updateAlertStatus (s : MonitoringState) (alert_id : Int)
    (new_status : String) (r : FetchResult Unit) : MonitoringState :=
  let s1 := setPending s
  match r with
  | .ok _ =>
    { s1 with
      alerts := setAlertStatusAt s1.alerts alert_id new_status,
      loading := false }
  | .fail msg => { s1 with error := some msg, loading := false }

/-- Source clearError. -/
def clearError (s : MonitoringState) : MonitoringState :=
  { s with error := none }

/-- The outcome every operation's failure branch must produce: all six
data fields unchanged, the error message recorded, loading false. -/
def failOutcome (s s' : MonitoringState) (msg : String) : Prop :=
  s'.dataQualityMetrics = s.dataQualityMetrics
    ∧ s'.performanceMetrics = s.performanceMetrics
    ∧ s'.alerts = s.alerts
    ∧ s'.alertRules = s.alertRules
    ∧ s'.dashboard = s.dashboard
    ∧ s'.timeSeriesData = s.timeSeriesData
    ∧ s'.error = some msg
    ∧ s'.loading = false

end FrontendStore

namespace Monitoring

/-- C6: every Alert produced by the manual createAlert operation has
rule_id = null and status = active; for every title, description,
severity, source and metadata given by the caller, the created alert's
initial status is active, never acknowledged or resolved, and it is what
gets stored. -/
theorem manual_create_alert_active (alerts : List Alert) (next_id : Nat)
    (title description severity source : String)
    (metadata : List (String × String)) (now : Int) :
    (createAlert alerts next_id title description severity source metadata
        now).1.rule_id = none
    ∧ (createAlert alerts next_id title description severity source metadata
        now).1.status = Status.active
    ∧ (createAlert alerts next_id title description severity source metadata
        now).2
      = (createAlert alerts next_id title description severity source
          metadata now).1 :: alerts :=
  ⟨rfl, rfl, rfl⟩

/-- Helper: an id lookup never succeeds on the empty store, and replacing
the stored alert of a given id makes the replacement the lookup result,
provided the replacement keeps the id. -/
theorem find_replace_by_id (i : Nat) (a' : Alert) (h' : a'.id = i) :
    ∀ (l : List Alert) (a : Alert),
      l.find? (fun b => b.id = i) = some a →
      (l.map (fun b => if b.id = i then a' else b)).find?
        (fun b => b.id = i) = some a'
  | [], a, h => by simp at h
  | b :: l, a, h => by
    by_cases hb : b.id = i
    · simp only [List.map_cons, if_pos hb]
      exact List.find?_cons_of_pos _ (by simpa using h')
    · simp only [List.map_cons, if_neg hb]
      rw [List.find?_cons_of_neg _ (by simpa using hb)] at h
      rw [List.find?_cons_of_neg _ (by simpa using hb)]
      exact find_replace_by_id i a' h' l a h

/-- C1: for an alert stored with status resolved, updateStatus to any
target status fails with InvalidTransitionError and leaves the store (and
so the alert's resolved status) unchanged; for an alert stored with status
active, the transition to resolved succeeds, and doing it a second time on
the resulting store fails with InvalidTransitionError — it succeeds
exactly once per alert. -/
theorem resolved_alert_terminal (alerts : List Alert) (i : Nat) (a : Alert)
    (s : Status) (now now2 : Int) (ha : findAlert alerts i = some a) :
    (a.status = .resolved →
      updateStatus alerts i s now = (.error .invalidTransition, alerts))
    ∧ (a.status = .active →
      (updateStatus alerts i .resolved now).1
          = .ok { a with status := .resolved, updated_at := now }
        ∧ updateStatus (updateStatus alerts i .resolved now).2 i .resolved
            now2
          = (.error .invalidTransition,
             (updateStatus alerts i .resolved now).2)) := by
  have hfind : alerts.find? (fun b => b.id = i) = some a := ha
  constructor
  · intro hres
    have hallowed : allowedUserTransition a.status s = false := by
      rw [hres]; cases s <;> rfl
    simp [updateStatus, hfind, hallowed]
  · intro hact
    have hai : a.id = i := by simpa using List.find?_some hfind
    have h1 : updateStatus alerts i .resolved now
        = (.ok { a with status := .resolved, updated_at := now },
           alerts.map (fun b => if b.id = i then
             { a with status := .resolved, updated_at := now } else b)) := by
      simp [updateStatus, hfind, hact, allowedUserTransition]
    refine ⟨by rw [h1], ?_⟩
    set alerts2 := (updateStatus alerts i .resolved now).2 with halerts2
    have hfind2 : alerts2.find? (fun b => b.id = i)
        = some { a with status := .resolved, updated_at := now } := by
      rw [halerts2, h1]
      exact find_replace_by_id i
        { a with status := .resolved, updated_at := now } hai alerts a hfind
    simp [updateStatus, hfind2, allowedUserTransition]

/-- Witness for the resolved-terminal theorem: a store holding one
resolved alert rejects the transition to acknowledged unchanged, and a
store holding one active alert resolves it. -/
theorem resolved_alert_terminal_witness :
    findAlert [(⟨1, none, "t", "", "high", "src", .resolved, [], 0, 0⟩
        : Alert)] 1
      = some ⟨1, none, "t", "", "high", "src", .resolved, [], 0, 0⟩
    ∧ updateStatus [(⟨1, none, "t", "", "high", "src", .resolved, [], 0, 0⟩
        : Alert)] 1 .acknowledged 5
      = (.error .invalidTransition,
         [⟨1, none, "t", "", "high", "src", .resolved, [], 0, 0⟩])
    ∧ (updateStatus [(⟨2, none, "t2", "", "low", "src", .active, [], 0, 0⟩
        : Alert)] 2 .resolved 5).1
      = .ok ⟨2, none, "t2", "", "low", "src", .resolved, [], 0, 5⟩ :=
  ⟨rfl,
   (resolved_alert_terminal
      [(⟨1, none, "t", "", "high", "src", .resolved, [], 0, 0⟩ : Alert)] 1
      (⟨1, none, "t", "", "high", "src", .resolved, [], 0, 0⟩ : Alert)
      .acknowledged 5 5 rfl).1 rfl,
   ((resolved_alert_terminal
      [(⟨2, none, "t2", "", "low", "src", .active, [], 0, 0⟩ : Alert)] 2
      (⟨2, none, "t2", "", "low", "src", .active, [], 0, 0⟩ : Alert)
      .resolved 5 5 rfl).2 rfl).1⟩

/-- C3: a rule with is_active = false is never evaluated: for every metric
store, alert store, subject and evaluation parameters, evaluating the rule
leaves the alert store exactly as it was, so no Alert is ever produced
from it. -/
theorem inactive_rule_never_evaluated (mstore : MetricStore)
    (alerts : List Alert) (rule : AlertRule) (subject : String) (now : Int)
    (minSamples next_id : Nat) (h : rule.is_active = false) :
    evalRuleOnce mstore alerts rule subject now minSamples next_id
      = alerts := by
  simp [evalRuleOnce, h]

/-- Witness for the inactive-rule theorem at a concrete inactive rule with
a breaching observation in its window. -/
theorem inactive_rule_never_evaluated_witness :
    evalRuleOnce [⟨1, "svc", "latency", .finite 500, none, 900⟩] []
      ⟨1, "r", "", ⟨"latency", "svc", .gt, 100, 300, .last⟩, "critical",
        false⟩ "svc" 1000 0 7 = [] :=
  inactive_rule_never_evaluated _ _ _ _ _ _ _ rfl

/-- C7: record fails with a ValidationError exactly when the observation's
timestamp is in the future beyond the skew tolerance, its value is not
finite (NaN or an infinity), or its metric_name or subject is empty; and a
failed record leaves the store unchanged, so nothing is stored and the
failure is surfaced to the producer. -/
theorem record_fails_iff (store : MetricStore) (now skew : Int)
    (o : MetricObservation) :
    ((∃ e, (record store now skew o).1 = .error e) ↔
      (now + skew < o.timestamp ∨ o.value.isFinite = false
        ∨ o.metric_name = "" ∨ o.subject = ""))
    ∧ ((∃ e, (record store now skew o).1 = .error e) →
      (record store now skew o).2 = store) := by
  unfold record validateObs
  split_ifs with h1 h2 h3 h4 <;> simp_all

/-- Witness for the record validation theorem: an observation with an
empty metric name is rejected and the store stays empty. -/
theorem record_fails_iff_witness :
    (∃ e, (record [] 0 0
        (⟨1, "s", "", .finite 1, none, 0⟩ : MetricObservation)).1 = .error e)
    ∧ (record [] 0 0
        (⟨1, "s", "", .finite 1, none, 0⟩ : MetricObservation)).2 = [] :=
  ⟨⟨.emptyMetricName, rfl⟩,
   (record_fails_iff [] 0 0 ⟨1, "s", "", .finite 1, none, 0⟩).2
     ⟨.emptyMetricName, rfl⟩⟩

/-- C8: a valid observation not already stored, once recorded, is returned
exactly once and unmodified by a query on its subject and metric over a
time range containing its timestamp; the query result is ordered ascending
by timestamp; and record never updates or deletes a stored observation —
every record call leaves the prior store as a prefix, only ever appending. -/
theorem record_then_query (store : MetricStore) (now skew lo hi tnow : Int)
    (o : MetricObservation)
    (hvalid : validateObs now skew o = none)
    (hnotin : o ∉ store)
    (hlo : lo ≤ o.timestamp) (hhi : o.timestamp ≤ hi) :
    List.count o (query (record store now skew o).2 (some o.subject)
        (some o.metric_name) (some (lo, hi)) tnow) = 1
    ∧ List.Pairwise (fun x y : MetricObservation => x.timestamp ≤ y.timestamp)
        (query (record store now skew o).2 (some o.subject)
          (some o.metric_name) (some (lo, hi)) tnow)
    ∧ (∀ (o' : MetricObservation) (now' skew' : Int), ∃ tail,
        (record store now' skew' o').2 = store ++ tail) := by
  have hstore : (record store now skew o).2 = store ++ [o] := by
    simp [record, hvalid]
  have hmatch : matchesQuery (some o.subject) (some o.metric_name) lo hi o
      = true := by
    simp [matchesQuery, hlo, hhi]
  have hq : query (record store now skew o).2 (some o.subject)
      (some o.metric_name) (some (lo, hi)) tnow
      = List.insertionSort obsLe ((store ++ [o]).filter
          (matchesQuery (some o.subject) (some o.metric_name) lo hi)) := by
    rw [hstore]; simp [query]
  refine ⟨?_, ?_, ?_⟩
  · rw [hq, (List.perm_insertionSort obsLe _).count_eq]
    rw [List.filter_append, List.count_append]
    rw [List.count_eq_zero.mpr
      (fun hmem => hnotin (List.mem_of_mem_filter hmem))]
    simp [hmatch]
  · rw [hq]
    exact List.sorted_insertionSort obsLe _
  · intro o' now' skew'
    cases h : validateObs now' skew' o' with
    | some e => exact ⟨[], by simp [record, h]⟩
    | none => exact ⟨[o'], by simp [record, h]⟩

/-- Witness for the record-then-query theorem: one freshly recorded
latency observation is found exactly once by the matching query. -/
theorem record_then_query_witness :
    validateObs 1000 10
      (⟨1, "feat1", "latency", .finite 50, none, 500⟩ : MetricObservation)
      = none
    ∧ List.count
        (⟨1, "feat1", "latency", .finite 50, none, 500⟩ : MetricObservation)
        (query (record [] 1000 10
            (⟨1, "feat1", "latency", .finite 50, none, 500⟩
              : MetricObservation)).2
          (some "feat1") (some "latency") (some (0, 2000)) 0) = 1 :=
  ⟨rfl,
   (record_then_query [] 1000 10 0 2000 0
      ⟨1, "feat1", "latency", .finite 50, none, 500⟩ rfl (by simp)
      (by decide) (by decide)).1⟩

/-- Helper: re-opening acknowledged alerts preserves every stored id. -/
theorem reopen_preserves_ids (alerts : List Alert) (rid : Nat) (now : Int) :
    (reopenAcknowledged alerts rid now).map (fun a => a.id)
      = alerts.map (fun a => a.id) := by
  unfold reopenAcknowledged
  rw [List.map_map]
  refine List.map_congr_left ?_
  intro a _
  by_cases h : (a.rule_id == some rid && a.status == Status.acknowledged)
      = true
  · simp [Function.comp, h]
  · simp [Function.comp, h]

/-- Helper: re-opening also preserves the number of open alerts the rule
holds, acknowledged and active both counting as open. -/
theorem reopen_preserves_open_count (alerts : List Alert) (rid : Nat)
    (now : Int) :
    countOpenForRule (reopenAcknowledged alerts rid now) rid
      = countOpenForRule alerts rid := by
  unfold countOpenForRule reopenAcknowledged
  rw [List.countP_map]
  refine List.countP_congr ?_
  intro a _
  by_cases h : (a.rule_id == some rid && a.status == Status.acknowledged)
      = true
  · rw [Bool.and_eq_true] at h
    simp [Function.comp, h.1, h.2, statusOpen]
  · simp [Function.comp, h]

/-- Helper: a rule has no open alert exactly when its open count is 0. -/
theorem open_count_zero_iff (alerts : List Alert) (rid : Nat) :
    countOpenForRule alerts rid = 0 ↔ hasOpenAlert alerts rid = false := by
  unfold countOpenForRule hasOpenAlert
  rw [List.countP_eq_zero]
  simp

/-- Helper: once a rule holds an open alert, a further evaluation never
changes how many it holds. -/
theorem eval_keeps_open_count (mstore : MetricStore) (alerts : List Alert)
    (rule : AlertRule) (subject : String) (now : Int) (minS nid : Nat)
    (h : countOpenForRule alerts rule.id ≠ 0) :
    countOpenForRule (evalRuleOnce mstore alerts rule subject now minS nid)
      rule.id = countOpenForRule alerts rule.id := by
  have hopen : hasOpenAlert alerts rule.id = true := by
    rcases Bool.eq_false_or_eq_true (hasOpenAlert alerts rule.id) with ht | hf
    · exact ht
    · exact absurd ((open_count_zero_iff alerts rule.id).mpr hf) h
  by_cases hact : rule.is_active = true
  · by_cases hb : breach rule (obsInWindow mstore subject
        rule.condition.metric_name now rule.condition.window) minS = true
    · simp only [evalRuleOnce, hact, hb, hopen, Bool.not_true, if_true,
        if_false, Bool.false_eq_true]
      exact reopen_preserves_open_count alerts rule.id now
    · simp [evalRuleOnce, hact, hb]
  · simp [evalRuleOnce, hact]

/-- C2: when an open (active or acknowledged) alert already exists for a
rule — deduplication key rule_id — evaluation creates no new alert: the
stored alert ids are exactly preserved.  A first breach with no open alert
creates exactly one open alert, carrying source = rule.name, severity =
rule.severity and status active, and a second evaluation tick (over any
metric store) leaves the rule with exactly that one open alert. -/
theorem breach_dedup_per_rule (mstore mstore2 : MetricStore)
    (alerts : List Alert) (rule : AlertRule) (subject subject2 : String)
    (now now2 : Int) (minS minS2 next_id next_id2 : Nat) :
    (hasOpenAlert alerts rule.id = true →
      (evalRuleOnce mstore alerts rule subject now minS next_id).map
          (fun a => a.id)
        = alerts.map (fun a => a.id))
    ∧ (countOpenForRule alerts rule.id = 0 →
       rule.is_active = true →
       breach rule (obsInWindow mstore subject rule.condition.metric_name
         now rule.condition.window) minS = true →
       evalRuleOnce mstore alerts rule subject now minS next_id
           = ruleAlert rule next_id now :: alerts
         ∧ countOpenForRule (evalRuleOnce mstore alerts rule subject now
             minS next_id) rule.id = 1
         ∧ (ruleAlert rule next_id now).source = rule.name
         ∧ (ruleAlert rule next_id now).severity = rule.severity
         ∧ (ruleAlert rule next_id now).status = Status.active
         ∧ countOpenForRule (evalRuleOnce mstore2 (evalRuleOnce mstore
             alerts rule subject now minS next_id) rule subject2 now2 minS2
             next_id2) rule.id = 1) := by
  constructor
  · intro hopen
    by_cases hact : rule.is_active = true
    · by_cases hb : breach rule (obsInWindow mstore subject
          rule.condition.metric_name now rule.condition.window) minS = true
      · simp only [evalRuleOnce, hact, Bool.not_true, Bool.false_eq_true,
          if_false, hb, if_true, hopen]
        exact reopen_preserves_ids alerts rule.id now
      · simp [evalRuleOnce, hact, hb]
    · simp [evalRuleOnce, hact]
  · intro h0 hact hb
    have hopenf : hasOpenAlert alerts rule.id = false :=
      (open_count_zero_iff alerts rule.id).mp h0
    have heval : evalRuleOnce mstore alerts rule subject now minS next_id
        = ruleAlert rule next_id now :: alerts := by
      simp [evalRuleOnce, hact, hb, hopenf]
    have hcnt : countOpenForRule (ruleAlert rule next_id now :: alerts)
        rule.id = 1 := by
      unfold countOpenForRule at h0 ⊢
      rw [List.countP_cons, h0]
      simp [ruleAlert, statusOpen]
    have hcnt1 : countOpenForRule (evalRuleOnce mstore alerts rule subject
        now minS next_id) rule.id = 1 := by rw [heval]; exact hcnt
    refine ⟨heval, hcnt1, rfl, rfl, rfl, ?_⟩
    rw [eval_keeps_open_count mstore2 _ rule subject2 now2 minS2 next_id2
      (by rw [hcnt1]; exact one_ne_zero)]
    exact hcnt1

/-- Witness for the deduplication theorem: a latency rule (avg over a 5
minute window, threshold 100) breached by observations averaging 150 gets
exactly one open alert, and a second evaluation tick does not duplicate
it. -/
theorem breach_dedup_per_rule_witness :
    breach (⟨1, "latency high", "",
        ⟨"latency", "svc", .gt, 100, 300, .avg⟩, "critical", true⟩
        : AlertRule)
      (obsInWindow
        [(⟨1, "svc", "latency", .finite 140, none, 800⟩
            : MetricObservation),
         (⟨2, "svc", "latency", .finite 160, none, 900⟩
            : MetricObservation)] "svc" "latency" 1000 300) 0 = true
    ∧ evalRuleOnce
        [(⟨1, "svc", "latency", .finite 140, none, 800⟩
            : MetricObservation),
         (⟨2, "svc", "latency", .finite 160, none, 900⟩
            : MetricObservation)] []
        (⟨1, "latency high", "",
          ⟨"latency", "svc", .gt, 100, 300, .avg⟩, "critical", true⟩
          : AlertRule) "svc" 1000 0 10
      = [ruleAlert
          (⟨1, "latency high", "",
            ⟨"latency", "svc", .gt, 100, 300, .avg⟩, "critical", true⟩
            : AlertRule) 10 1000]
    ∧ countOpenForRule
        (evalRuleOnce
          [(⟨1, "svc", "latency", .finite 140, none, 800⟩
              : MetricObservation),
           (⟨2, "svc", "latency", .finite 160, none, 900⟩
              : MetricObservation)]
          (evalRuleOnce
            [(⟨1, "svc", "latency", .finite 140, none, 800⟩
                : MetricObservation),
             (⟨2, "svc", "latency", .finite 160, none, 900⟩
                : MetricObservation)] []
            (⟨1, "latency high", "",
              ⟨"latency", "svc", .gt, 100, 300, .avg⟩, "critical", true⟩
              : AlertRule) "svc" 1000 0 10)
          (⟨1, "latency high", "",
            ⟨"latency", "svc", .gt, 100, 300, .avg⟩, "critical", true⟩
            : AlertRule) "svc" 1060 0 11) 1 = 1 := by
  have hb : breach (⟨1, "latency high", "",
      ⟨"latency", "svc", .gt, 100, 300, .avg⟩, "critical", true⟩
      : AlertRule)
      (obsInWindow
        [(⟨1, "svc", "latency", .finite 140, none, 800⟩
            : MetricObservation),
         (⟨2, "svc", "latency", .finite 160, none, 900⟩
            : MetricObservation)] "svc" "latency" 1000 300) 0 = true := by
    norm_num [breach, obsInWindow, query, matchesQuery, List.insertionSort,
      List.orderedInsert, List.filter, FVal.toRat, compareQ, obsLe]
  have h := (breach_dedup_per_rule
    [(⟨1, "svc", "latency", .finite 140, none, 800⟩ : MetricObservation),
     (⟨2, "svc", "latency", .finite 160, none, 900⟩ : MetricObservation)]
    [(⟨1, "svc", "latency", .finite 140, none, 800⟩ : MetricObservation),
     (⟨2, "svc", "latency", .finite 160, none, 900⟩ : MetricObservation)]
    []
    (⟨1, "latency high", "",
      ⟨"latency", "svc", .gt, 100, 300, .avg⟩, "critical", true⟩
      : AlertRule) "svc" "svc" 1000 1060 0 0 10 11).2 rfl rfl hb
  exact ⟨hb, h.1, h.2.2.2.2.2⟩

/-- C4: for every state of the alert store (and of everything else the
dashboard reads), the active_alert_count field of dashboard() equals the
number of alerts listAlerts returns under the filter selecting status
active only. -/
theorem dashboard_active_count_consistent (mstore : MetricStore)
    (rules : List AlertRule) (alerts : List Alert)
    (isQualitySubject : String → Bool) (now : Int) :
    (dashboard mstore rules alerts isQualitySubject now).active_alert_count
      = (listAlerts alerts ⟨none, some .active, none⟩).length := by
  simp [dashboard, listAlerts, List.countP_eq_length_filter]

/-- C5: timeSeries partitions the half-open range from start to stop into
fixed-width buckets of the interval: it returns one bucket per partition
cell, the k-th bucket starting at start + k·interval and carrying the
average of the observations of the metric whose timestamp lies in that
half-open cell, or no value when the cell holds no observation; over
observations at t0+10m (value 50) and t0+70m (value 150) with stop =
t0+4h and interval 1h, exactly 4 buckets are produced, bucket 0 with value
50, bucket 1 with value 150 and buckets 2 and 3 empty. -/
theorem time_series_buckets (store : MetricStore) (metric : String)
    (start stop interval : Int) (k : Nat)
    (hk : k < numBuckets start stop interval) :
    ((timeSeries store metric start stop interval).length
        = numBuckets start stop interval)
    ∧ ((timeSeries store metric start stop interval)[k]?
        = some
          { timestamp := start + (k : Int) * interval
            value :=
              match ((store.filter (fun o =>
                  o.metric_name == metric
                    && decide (start + (k : Int) * interval ≤ o.timestamp)
                    && decide (o.timestamp
                        < start + ((k : Int) + 1) * interval))).map
                  (fun o => o.value.toRat)) with
              | [] => none
              | v :: vs =>
                some ((v :: vs).sum / ((vs.length + 1 : Nat) : ℚ)) })
    ∧ timeSeries
        [(⟨1, "f", "latency_ms", .finite 50, none, 600⟩
            : MetricObservation),
         (⟨2, "f", "latency_ms", .finite 150, none, 4200⟩
            : MetricObservation)] "latency_ms" 0 14400 3600
      = [⟨0, some 50⟩, ⟨3600, some 150⟩, ⟨7200, none⟩, ⟨10800, none⟩] := by
  have h4 : numBuckets 0 14400 3600 = 4 := by decide
  refine ⟨?_, ?_, ?_⟩
  · simp only [timeSeries, List.length_map, List.length_range]
  · simp only [timeSeries, List.getElem?_map, List.getElem?_range, hk,
      if_true, Option.map_some', bucketVals]
  · rw [timeSeries, h4]
    norm_num [bucketVals, List.range_succ, FVal.toRat]

/-- Witness for the bucketing theorem at the specification's example: two
observations, a four-hour range, one-hour buckets. -/
theorem time_series_buckets_witness :
    0 < numBuckets 0 14400 3600
    ∧ timeSeries
        [(⟨1, "f", "latency_ms", .finite 50, none, 600⟩
            : MetricObservation),
         (⟨2, "f", "latency_ms", .finite 150, none, 4200⟩
            : MetricObservation)] "latency_ms" 0 14400 3600
      = [⟨0, some 50⟩, ⟨3600, some 150⟩, ⟨7200, none⟩, ⟨10800, none⟩] :=
  ⟨by decide,
   (time_series_buckets
      [(⟨1, "f", "latency_ms", .finite 50, none, 600⟩ : MetricObservation),
       (⟨2, "f", "latency_ms", .finite 150, none, 4200⟩
          : MetricObservation)] "latency_ms" 0 14400 3600 0
      (by decide)).2.2⟩

end Monitoring

namespace FrontendStore

/-- C9: for each of the nine fetch and mutation operations of the
monitoring store, a failed request (non-ok response or thrown error)
leaves all six data fields of the state unchanged, sets error to the
(non-null) message, and sets loading to false. -/
theorem failed_operations_leave_data_unchanged (s : MonitoringState)
    (msg : String) (alert_id : Int) (new_status : String) :
    failOutcome s (fetchDataQualityMetrics s (.fail msg)) msg
    ∧ failOutcome s (fetchPerformanceMetrics s (.fail msg)) msg
    ∧ failOutcome s (fetchAlerts s (.fail msg)) msg
    ∧ failOutcome s (fetchAlertRules s (.fail msg)) msg
    ∧ failOutcome s (fetchDashboard s (.fail msg)) msg
    ∧ failOutcome s (fetchTimeSeriesData s (.fail msg)) msg
    ∧ failOutcome s (createAlert s (.fail msg)) msg
    ∧ failOutcome s (createAlertRule s (.fail msg)) msg
    ∧ failOutcome s (updateAlertStatus s alert_id new_status (.fail msg)) msg := by
  refine ⟨?_, ?_, ?_, ?_, ?_, ?_, ?_, ?_, ?_⟩ <;>
    exact ⟨rfl, rfl, rfl, rfl, rfl, rfl, rfl, rfl⟩

/-- Helper: when no alert carries the id, the status assignment leaves the
array as it was. -/
theorem setAlertStatusAt_no_match (i : Int) (st : String) :
    ∀ l : List Alert, (∀ a ∈ l, a.id ≠ i) → setAlertStatusAt l i st = l
  | [], _ => rfl
  | a :: l, h => by
    simp only [setAlertStatusAt]
    rw [if_neg (h a (by simp))]
    rw [setAlertStatusAt_no_match i st l (fun b hb => h b (by simp [hb]))]

/-- Helper: the first alert carrying the id has exactly its status field
assigned; the alerts before and after it are untouched. -/
theorem setAlertStatusAt_first_match (i : Int) (st : String) :
    ∀ (pre : List Alert) (a : Alert) (post : List Alert),
      (∀ b ∈ pre, b.id ≠ i) → a.id = i →
      setAlertStatusAt (pre ++ a :: post) i st
        = pre ++ { a with status := st } :: post
  | [], a, post, _, hai => by
    simp only [List.nil_append, setAlertStatusAt]
    rw [if_pos hai]
  | b :: pre, a, post, hpre, hai => by
    simp only [List.cons_append, setAlertStatusAt]
    rw [if_neg (hpre b (by simp))]
    show b :: setAlertStatusAt (pre ++ a :: post) i st = _
    rw [setAlertStatusAt_first_match i st pre a post
      (fun c hc => hpre c (by simp [hc])) hai]

/-- C10: a successful updateAlertStatus call sets the status of the first
alert carrying the id to the given string (whatever its previous status),
changes no other field of that alert and no other alert, leaves every
other data field of the store unchanged, and when no alert carries the id
the alerts array is unchanged. -/
theorem update_status_success_frame (s : MonitoringState) (i : Int)
    (st : String) :
    (updateAlertStatus s i st (.ok ())).dataQualityMetrics
        = s.dataQualityMetrics
    ∧ (updateAlertStatus s i st (.ok ())).performanceMetrics
        = s.performanceMetrics
    ∧ (updateAlertStatus s i st (.ok ())).alertRules = s.alertRules
    ∧ (updateAlertStatus s i st (.ok ())).dashboard = s.dashboard
    ∧ (updateAlertStatus s i st (.ok ())).timeSeriesData = s.timeSeriesData
    ∧ (updateAlertStatus s i st (.ok ())).loading = false
    ∧ ((∀ a ∈ s.alerts, a.id ≠ i) →
        (updateAlertStatus s i st (.ok ())).alerts = s.alerts)
    ∧ (∀ pre a post, s.alerts = pre ++ a :: post → a.id = i →
        (∀ b ∈ pre, b.id ≠ i) →
        (updateAlertStatus s i st (.ok ())).alerts
          = pre ++ { a with status := st } :: post) := by
  refine ⟨rfl, rfl, rfl, rfl, rfl, rfl, ?_, ?_⟩
  · intro h
    exact setAlertStatusAt_no_match i st s.alerts h
  · intro pre a post hsplit hai hpre
    show setAlertStatusAt s.alerts i st = _
    rw [hsplit]
    exact setAlertStatusAt_first_match i st pre a post hpre hai

/-- Witness for the success-path frame theorem: in a store holding two
active alerts, resolving the second rewrites only its status. -/
theorem update_status_success_frame_witness :
    (updateAlertStatus
      ⟨[], [],
       [(⟨1, "a", "", "low", "x", [], "active", "", "", 0, 0⟩ : Alert),
        (⟨2, "b", "", "high", "y", [], "active", "", "", 0, 0⟩ : Alert)],
       [], none, [], false, none⟩ 2 "resolved" (.ok ())).alerts
      = [(⟨1, "a", "", "low", "x", [], "active", "", "", 0, 0⟩ : Alert),
         (⟨2, "b", "", "high", "y", [], "resolved", "", "", 0, 0⟩ : Alert)] :=
  (update_status_success_frame
      ⟨[], [],
       [(⟨1, "a", "", "low", "x", [], "active", "", "", 0, 0⟩ : Alert),
        (⟨2, "b", "", "high", "y", [], "active", "", "", 0, 0⟩ : Alert)],
       [], none, [], false, none⟩ 2 "resolved").2.2.2.2.2.2.2
    [(⟨1, "a", "", "low", "x", [], "active", "", "", 0, 0⟩ : Alert)]
    (⟨2, "b", "", "high", "y", [], "active", "", "", 0, 0⟩ : Alert)
    [] rfl rfl (by decide)

end FrontendStore
